import Mathlib

/-!
Verification of the element-classification and report-interpretation core of
`DeliberateMouseDriver.cpp` (a HID mouse driver that disables pointer and
scroll acceleration).

The embedding follows the source:
* `IOHIDElement` carries the fields the driver reads from a HID element:
  type, usage page, usage, report ID, timestamp and current value.
* `parseMouseElements` mirrors the classification loop (lines 252-311).
* `setButtonState` mirrors the bit-mask helper (lines 331-347).
* `handleMouseReport` mirrors the per-packet interpretation loop and the two
  dispatch calls (lines 356-427).
* 32-bit signed arithmetic (`IOFixed` values, `<<` shifts) is modelled on `Int`
  with an explicit wrap `wrap32` into `[-2^31, 2^31)`.
-/

/-- Two's-complement wrap of an integer into the 32-bit signed range
`[-2^31, 2^31)`; models truncation to `int32_t` / `IOFixed`. -/
def wrap32 (x : Int) : Int :=
  (x + 2 ^ 31) % 2 ^ 32 - 2 ^ 31

/-- `IOFixedMultiply(a, b)`: 16.16 fixed-point product, from the IOKit macro
`(IOFixed)((((SInt64)(a)) * ((SInt64)(b))) >> 16)`.  The `int64` product is
exact; the arithmetic right shift by 16 is floor division by `2^16`; the cast
back to `IOFixed` is a 32-bit wrap. -/
def IOFixedMultiply (a b : Int) : Int :=
  wrap32 (Int.fdiv (a * b) (2 ^ 16))

/-- `kIOHIDElementTypeCollection` from `IOHIDElementType`. -/
def kIOHIDElementTypeCollection : Nat := 513

/-- `kIOHIDElementTypeInput_Misc`, a representative leaf element type. -/
def kIOHIDElementTypeInput_Misc : Nat := 1

/-- HID usage page: generic desktop (pointer axes). -/
def kHIDPage_GenericDesktop : Nat := 0x01

/-- HID usage page: buttons. -/
def kHIDPage_Button : Nat := 0x09

/-- Generic-desktop usage: X axis. -/
def kHIDUsage_GD_X : Nat := 0x30

/-- Generic-desktop usage: Y axis. -/
def kHIDUsage_GD_Y : Nat := 0x31

/-- Generic-desktop usage: wheel. -/
def kHIDUsage_GD_Wheel : Nat := 0x38

/-- Button usage: first button. -/
def kHIDUsage_Button_1 : Nat := 0x01

/-- Button usage: 255th button. -/
def kHIDUsage_Button_255 : Nat := 0xFF

/-- `kIOReturnSuccess`. -/
def kIOReturnSuccess : Nat := 0

/-- `kIOReturnError`. -/
def kIOReturnError : Nat := 0xe00002bc

/-- `kIOReturnInvalid`. -/
def kIOReturnInvalid : Nat := 0xe0000001

/-- One HID element (input channel) as the driver reads it: element type,
usage page (usage domain), usage (usage code), report ID (report identity),
last sample timestamp and current value (signed 32-bit sample). -/
structure IOHIDElement where
  type : Nat
  usagePage : Nat
  usage : Nat
  reportID : Nat
  timeStamp : Nat
  value : Int
deriving DecidableEq

/-- The per-element acceptance test of `parseMouseElements` (lines 266-307):
reject collections and zero usages; on the generic-desktop page accept exactly
X, Y and wheel; on the button page accept everything; reject all other
pages. -/
def isMouseElement (e : IOHIDElement) : Bool :=
  if e.type = kIOHIDElementTypeCollection ∨ e.usage = 0 then
    false
  else if e.usagePage = kHIDPage_GenericDesktop then
    e.usage = kHIDUsage_GD_X ∨ e.usage = kHIDUsage_GD_Y ∨ e.usage = kHIDUsage_GD_Wheel
  else if e.usagePage = kHIDPage_Button then
    true
  else
    false

/-- `DeliberateMouseDriver::parseMouseElements` (lines 252-311): walk the
device elements in order, retain those passing `isMouseElement` into the
`mouseElements` set, and report whether any element was retained. -/
def parseMouseElements : List IOHIDElement → List IOHIDElement × Bool
  | [] => ([], false)
  | e :: rest =>
    let r := parseMouseElements rest
    if isMouseElement e then (e :: r.1, true) else (r.1, r.2)

/-- `setButtonState` (lines 331-347): set or clear bit `index` of the 32-bit
`buttonState` depending on `value`.  The C code computes `mask = 1 << index`
with no bound check on `index`; for `index ≥ 32` that shift exceeds the 32-bit
width (undefined behavior in C), modelled here as the value wrap
`2 ^ index % 2 ^ 32` (which is `0` for `index ≥ 32`). -/
def setButtonState (buttonState : Nat) (index : Nat) (value : Int) : Nat :=
  let mask : Nat := 2 ^ index % 2 ^ 32
  if value = 0 then
    buttonState &&& ((2 ^ 32 - 1) ^^^ mask)
  else
    buttonState ||| mask

/-- Loop accumulator of `handleMouseReport`: the three fixed-point deltas
(`dX`, `dY`, `scrollVert`, lines 358-360) and the persistent
`ivars->buttonState`. -/
structure MouseAccum where
  dX : Int
  dY : Int
  scrollVert : Int
  buttonState : Nat
deriving DecidableEq

/-- One iteration of the `handleMouseReport` element loop (lines 362-419):
skip on report-ID mismatch, skip on timestamp mismatch, then dispatch on usage
page and usage.  `value << 15` and `value << 16` wrap at 32 bits. -/
def processElement (timestamp reportID : Nat) (st : MouseAccum) (e : IOHIDElement) :
    MouseAccum :=
  if reportID ≠ e.reportID then st
  else if e.timeStamp ≠ timestamp then st
  else if e.usagePage = kHIDPage_GenericDesktop then
    if e.usage = kHIDUsage_GD_X then
      { st with dX := wrap32 (e.value * 2 ^ 15) }
    else if e.usage = kHIDUsage_GD_Y then
      { st with dY := wrap32 (e.value * 2 ^ 15) }
    else if e.usage = kHIDUsage_GD_Wheel then
      { st with scrollVert := IOFixedMultiply (wrap32 (e.value * 2 ^ 16)) (wrap32 (-3 * 2 ^ 16)) }
    else st
  else if e.usagePage = kHIDPage_Button then
    if kHIDUsage_Button_1 ≤ e.usage ∧ e.usage ≤ kHIDUsage_Button_255 then
      { st with buttonState := setButtonState st.buttonState (e.usage - kHIDUsage_Button_1) e.value }
    else st
  else st

/-- The synthesized pointer event of `dispatchRelativePointerEvent`
(line 425): timestamp, fixed-point deltas, button mask, and the
no-acceleration option. -/
structure PointerEvent where
  timestamp : Nat
  dx : Int
  dy : Int
  buttons : Nat
  accelerationDisabled : Bool
deriving DecidableEq

/-- The synthesized scroll event of `dispatchRelativeScrollWheelEvent`
(line 426): timestamp, vertical and horizontal fixed-point deltas, and the
no-acceleration option. -/
structure ScrollEvent where
  timestamp : Nat
  vertical : Int
  horizontal : Int
  accelerationDisabled : Bool
deriving DecidableEq

/-- An event dispatched downstream by `handleMouseReport`. -/
inductive DispatchedEvent where
  | pointer (e : PointerEvent)
  | scroll (e : ScrollEvent)
deriving DecidableEq

/-- Result of one `handleMouseReport` invocation: the two dispatched events
(in dispatch order) and the updated persistent `buttonState`. -/
structure HandleResult where
  pointer : PointerEvent
  scroll : ScrollEvent
  events : List DispatchedEvent
  buttonState : Nat
deriving DecidableEq

/-- `DeliberateMouseDriver::handleMouseReport` (lines 356-427): fold the
element loop over the classified `mouseElements` starting from zero deltas and
the persistent `buttonState`, then dispatch exactly one pointer event and one
scroll event, both with acceleration disabled and the scroll event with zero
horizontal delta. -/
def handleMouseReport (timestamp reportID : Nat) (mouseElements : List IOHIDElement)
    (buttonState : Nat) : HandleResult :=
  let final := mouseElements.foldl (processElement timestamp reportID)
    { dX := 0, dY := 0, scrollVert := 0, buttonState := buttonState }
  let pointer : PointerEvent :=
    { timestamp := timestamp, dx := final.dX, dy := final.dY,
      buttons := final.buttonState, accelerationDisabled := true }
  let scroll : ScrollEvent :=
    { timestamp := timestamp, vertical := final.scrollVert, horizontal := 0,
      accelerationDisabled := true }
  { pointer := pointer, scroll := scroll,
    events := [DispatchedEvent.pointer pointer, DispatchedEvent.scroll scroll],
    buttonState := final.buttonState }

/-- `DeliberateMouseDriver::Start_Impl` (lines 78-155), with the host runtime
calls (`super::Start`, `CreateActionReportAvailable`, the `IOHIDInterface`
cast, `Open`, `getElements`, `RegisterService`) abstracted to succeed-or-fail
flags; a failing opaque host call is modelled as `kIOReturnError`, while the
null-elements and no-mouse-elements paths return `kIOReturnInvalid` exactly as
lines 126 and 137 do. -/
def Start_Impl (superStartOk createActionOk castOk openOk : Bool)
    (deviceElements : Option (List IOHIDElement)) (registerOk : Bool) : Nat :=
  if superStartOk = false then kIOReturnError
  else if createActionOk = false then kIOReturnError
  else if castOk = false then kIOReturnError
  else if openOk = false then kIOReturnError
  else
    match deviceElements with
    | none => kIOReturnInvalid
    | some elems =>
      if (parseMouseElements elems).2 = false then kIOReturnInvalid
      else if registerOk = false then kIOReturnError
      else kIOReturnSuccess

/-! ### Helper lemmas -/

/-- The classification loop retains exactly the elements passing
`isMouseElement`, in order, and reports whether any passed. -/
theorem parseMouseElements_eq_filter (l : List IOHIDElement) :
    parseMouseElements l =
      (l.filter (fun e => isMouseElement e), l.any (fun e => isMouseElement e)) := by
  induction l with
  | nil => rfl
  | cons e rest ih =>
    simp only [parseMouseElements, ih, List.filter_cons, List.any_cons]
    by_cases h : isMouseElement e = true
    · simp [h]
    · simp [h]

/-- An element failing the report-identity check or the timestamp check is
skipped: the loop accumulator is unchanged. -/
theorem processElement_skip (timestamp reportID : Nat) (st : MouseAccum)
    (e : IOHIDElement) (h : reportID ≠ e.reportID ∨ e.timeStamp ≠ timestamp) :
    processElement timestamp reportID st e = st := by
  rcases h with h | h
  · simp [processElement, h]
  · simp [processElement, h]

/-- If no element of the list matches the packet identity and timestamp, the
whole loop leaves the accumulator unchanged. -/
theorem foldl_processElement_skip (timestamp reportID : Nat)
    (elems : List IOHIDElement) (st : MouseAccum)
    (h : ∀ e ∈ elems, reportID ≠ e.reportID ∨ e.timeStamp ≠ timestamp) :
    elems.foldl (processElement timestamp reportID) st = st := by
  induction elems generalizing st with
  | nil => rfl
  | cons e rest ih =>
    have he := h e (List.mem_cons_self e rest)
    rw [List.foldl_cons, processElement_skip timestamp reportID st e he]
    exact ih st (fun x hx => h x (List.mem_cons_of_mem e hx))

/-! ### Claims -/

/-- C1: a classified channel contributes to a packet's output only if its
report identity equals the packet's report ID and its timestamp equals the
packet's timestamp; a channel failing either check is skipped and contributes
nothing to `deltaX`, `deltaY`, `scrollVertical` or the button mask, even if
the other check passes: removing it from the classified set leaves the whole
result of `handleMouseReport` unchanged. -/
theorem mismatched_channel_contributes_nothing (timestamp reportID : Nat)
    (xs ys : List IOHIDElement) (e : IOHIDElement) (buttonState : Nat)
    (h : e.reportID ≠ reportID ∨ e.timeStamp ≠ timestamp) :
    handleMouseReport timestamp reportID (xs ++ e :: ys) buttonState =
      handleMouseReport timestamp reportID (xs ++ ys) buttonState := by
  have hskip : ∀ st : MouseAccum, processElement timestamp reportID st e = st := by
    intro st
    apply processElement_skip
    rcases h with h | h
    · exact Or.inl (Ne.symm h)
    · exact Or.inr h
  simp only [handleMouseReport, List.foldl_append, List.foldl_cons, hskip]

/-- Witness for C1: a channel with a mismatched report ID (2 instead of 1) is
dropped from the packet's synthesis. -/
theorem mismatched_channel_contributes_nothing_witness :
    handleMouseReport 7 1
        [⟨kIOHIDElementTypeInput_Misc, kHIDPage_GenericDesktop, kHIDUsage_GD_X, 2, 7, 4⟩] 5 =
      handleMouseReport 7 1 [] 5 :=
  mismatched_channel_contributes_nothing 7 1 [] []
    ⟨kIOHIDElementTypeInput_Misc, kHIDPage_GenericDesktop, kHIDUsage_GD_X, 2, 7, 4⟩ 5
    (Or.inl (by decide))

/-- C2: for a matching channel the interpreter computes
`deltaX = value << 15` on the X axis, `deltaY = value << 15` on the Y axis and
`scrollVertical = IOFixedMultiply(value << 16, -3 << 16)` on the wheel; in
particular raw X sample 4 yields `deltaX = 131072` and raw wheel sample 2
yields `scrollVertical = -393216` (fixed-point `-6.0`). -/
theorem interpreter_scaling (timestamp reportID buttonState : Nat) (v : Int) :
    ((handleMouseReport timestamp reportID
        [⟨kIOHIDElementTypeInput_Misc, kHIDPage_GenericDesktop, kHIDUsage_GD_X,
          reportID, timestamp, v⟩] buttonState).pointer.dx = wrap32 (v * 2 ^ 15))
    ∧ ((handleMouseReport timestamp reportID
        [⟨kIOHIDElementTypeInput_Misc, kHIDPage_GenericDesktop, kHIDUsage_GD_Y,
          reportID, timestamp, v⟩] buttonState).pointer.dy = wrap32 (v * 2 ^ 15))
    ∧ ((handleMouseReport timestamp reportID
        [⟨kIOHIDElementTypeInput_Misc, kHIDPage_GenericDesktop, kHIDUsage_GD_Wheel,
          reportID, timestamp, v⟩] buttonState).scroll.vertical =
        IOFixedMultiply (wrap32 (v * 2 ^ 16)) (wrap32 (-3 * 2 ^ 16)))
    ∧ ((handleMouseReport timestamp reportID
        [⟨kIOHIDElementTypeInput_Misc, kHIDPage_GenericDesktop, kHIDUsage_GD_X,
          reportID, timestamp, 4⟩] buttonState).pointer.dx = 131072)
    ∧ ((handleMouseReport timestamp reportID
        [⟨kIOHIDElementTypeInput_Misc, kHIDPage_GenericDesktop, kHIDUsage_GD_Wheel,
          reportID, timestamp, 2⟩] buttonState).scroll.vertical = -393216) := by
  refine ⟨?_, ?_, ?_, ?_, ?_⟩ <;>
    simp [handleMouseReport, processElement, kHIDPage_GenericDesktop, kHIDPage_Button,
      kHIDUsage_GD_X, kHIDUsage_GD_Y, kHIDUsage_GD_Wheel] <;>
    decide

/-- C3: the classifier accepts every non-collection, nonzero-usage channel on
the button page regardless of usage code; on the generic-desktop page it
accepts exactly the X, Y and wheel usages; channels on any other page are
rejected. -/
theorem classifier_policy (e : IOHIDElement)
    (hType : e.type ≠ kIOHIDElementTypeCollection) (hUsage : e.usage ≠ 0) :
    (e.usagePage = kHIDPage_Button → e ∈ (parseMouseElements [e]).1)
    ∧ (e.usagePage = kHIDPage_GenericDesktop →
        (e ∈ (parseMouseElements [e]).1 ↔
          e.usage = kHIDUsage_GD_X ∨ e.usage = kHIDUsage_GD_Y ∨ e.usage = kHIDUsage_GD_Wheel))
    ∧ (e.usagePage ≠ kHIDPage_Button → e.usagePage ≠ kHIDPage_GenericDesktop →
        e ∉ (parseMouseElements [e]).1) := by
  have hmem : e ∈ (parseMouseElements [e]).1 ↔ isMouseElement e = true := by
    rw [parseMouseElements_eq_filter]
    simp [List.mem_filter]
  refine ⟨?_, ?_, ?_⟩
  · intro hPage
    rw [hmem]
    simp [isMouseElement, hType, hUsage, hPage, kHIDPage_Button, kHIDPage_GenericDesktop]
  · intro hPage
    rw [hmem]
    simp [isMouseElement, hType, hUsage, hPage]
  · intro hb hg
    rw [hmem]
    simp [isMouseElement, hType, hUsage, hb, hg]

/-- Witness for C3: a button-page channel with the arbitrary usage code 5 is
classified. -/
theorem classifier_policy_witness :
    (⟨kIOHIDElementTypeInput_Misc, kHIDPage_Button, 5, 0, 0, 0⟩ : IOHIDElement) ∈
      (parseMouseElements
        [⟨kIOHIDElementTypeInput_Misc, kHIDPage_Button, 5, 0, 0, 0⟩]).1 :=
  (classifier_policy _ (by decide) (by decide)).1 rfl

/-- C4: no collection-typed channel and no zero-usage channel ever appears in
the classified set produced by `parseMouseElements`, whatever the input
sequence. -/
theorem classifier_purity (l : List IOHIDElement) (e : IOHIDElement)
    (h : e ∈ (parseMouseElements l).1) :
    e.type ≠ kIOHIDElementTypeCollection ∧ e.usage ≠ 0 := by
  rw [parseMouseElements_eq_filter] at h
  rw [List.mem_filter] at h
  have hm := h.2
  by_cases h1 : e.type = kIOHIDElementTypeCollection ∨ e.usage = 0
  · rw [isMouseElement, if_pos h1] at hm
    exact absurd hm (by decide)
  · push_neg at h1
    exact h1

/-- Witness for C4: applying the purity theorem to a concrete classified
element. -/
theorem classifier_purity_witness :
    (⟨kIOHIDElementTypeInput_Misc, kHIDPage_Button, 5, 0, 0, 0⟩ :
        IOHIDElement).type ≠ kIOHIDElementTypeCollection
    ∧ (⟨kIOHIDElementTypeInput_Misc, kHIDPage_Button, 5, 0, 0, 0⟩ :
        IOHIDElement).usage ≠ 0 :=
  classifier_purity [⟨kIOHIDElementTypeInput_Misc, kHIDPage_Button, 5, 0, 0, 0⟩] _
    (by decide)

/-- C7: classification reports `found = true` exactly when at least one
channel was accepted into the classified set, and when `found` is false the
attach sequence fails: `Start_Impl` returns `kIOReturnInvalid`, which is not
success. -/
theorem classification_found_start_fails (l : List IOHIDElement) :
    ((parseMouseElements l).2 = true ↔ (parseMouseElements l).1 ≠ [])
    ∧ ((parseMouseElements l).2 = false →
        Start_Impl true true true true (some l) true = kIOReturnInvalid
        ∧ kIOReturnInvalid ≠ kIOReturnSuccess) := by
  constructor
  · rw [parseMouseElements_eq_filter]
    simp only [List.any_eq_true, Ne, List.filter_eq_nil_iff]
    push_neg
    simp
  · intro h
    refine ⟨?_, by decide⟩
    simp [Start_Impl, h]

/-- Witness for C7: an empty device-element list yields `found = false` and an
attach failure. -/
theorem classification_found_start_fails_witness :
    Start_Impl true true true true (some []) true = kIOReturnInvalid
    ∧ kIOReturnInvalid ≠ kIOReturnSuccess :=
  (classification_found_start_fails []).2 rfl

/-- C5: every invocation of `handleMouseReport` dispatches exactly one pointer
event and one scroll event, both with acceleration disabled; when no
classified channel matches the packet's report ID and timestamp, the deltas
are zero, the scroll event's horizontal delta is zero, and the button mask
carried by the pointer event equals the prior persisted button state. -/
theorem interpreter_unconditional (timestamp reportID : Nat)
    (elems : List IOHIDElement) (buttonState : Nat) :
    ((handleMouseReport timestamp reportID elems buttonState).events =
      [DispatchedEvent.pointer (handleMouseReport timestamp reportID elems buttonState).pointer,
       DispatchedEvent.scroll (handleMouseReport timestamp reportID elems buttonState).scroll])
    ∧ (handleMouseReport timestamp reportID elems buttonState).pointer.accelerationDisabled = true
    ∧ (handleMouseReport timestamp reportID elems buttonState).scroll.accelerationDisabled = true
    ∧ (handleMouseReport timestamp reportID elems buttonState).scroll.horizontal = 0
    ∧ ((∀ e ∈ elems, e.reportID ≠ reportID ∨ e.timeStamp ≠ timestamp) →
        (handleMouseReport timestamp reportID elems buttonState).pointer.dx = 0
        ∧ (handleMouseReport timestamp reportID elems buttonState).pointer.dy = 0
        ∧ (handleMouseReport timestamp reportID elems buttonState).scroll.vertical = 0
        ∧ (handleMouseReport timestamp reportID elems buttonState).pointer.buttons = buttonState
        ∧ (handleMouseReport timestamp reportID elems buttonState).buttonState = buttonState) := by
  refine ⟨rfl, rfl, rfl, rfl, ?_⟩
  intro h
  have h' : ∀ e ∈ elems, reportID ≠ e.reportID ∨ e.timeStamp ≠ timestamp := by
    intro e he
    rcases h e he with hr | ht
    · exact Or.inl (Ne.symm hr)
    · exact Or.inr ht
  have hfold := foldl_processElement_skip timestamp reportID elems
    { dX := 0, dY := 0, scrollVert := 0, buttonState := buttonState } h'
  simp only [handleMouseReport, hfold]
  exact ⟨trivial, trivial, trivial, trivial, trivial⟩

/-- Witness for C5: a packet (report ID 1) whose only classified channel
belongs to report ID 2 yields zero deltas and an unchanged button mask. -/
theorem interpreter_unconditional_witness :
    (handleMouseReport 3 1
        [⟨kIOHIDElementTypeInput_Misc, kHIDPage_GenericDesktop, kHIDUsage_GD_X, 2, 3, 9⟩]
        5).pointer.dx = 0
    ∧ (handleMouseReport 3 1
        [⟨kIOHIDElementTypeInput_Misc, kHIDPage_GenericDesktop, kHIDUsage_GD_X, 2, 3, 9⟩]
        5).pointer.dy = 0
    ∧ (handleMouseReport 3 1
        [⟨kIOHIDElementTypeInput_Misc, kHIDPage_GenericDesktop, kHIDUsage_GD_X, 2, 3, 9⟩]
        5).scroll.vertical = 0
    ∧ (handleMouseReport 3 1
        [⟨kIOHIDElementTypeInput_Misc, kHIDPage_GenericDesktop, kHIDUsage_GD_X, 2, 3, 9⟩]
        5).pointer.buttons = 5
    ∧ (handleMouseReport 3 1
        [⟨kIOHIDElementTypeInput_Misc, kHIDPage_GenericDesktop, kHIDUsage_GD_X, 2, 3, 9⟩]
        5).buttonState = 5 :=
  (interpreter_unconditional 3 1
    [⟨kIOHIDElementTypeInput_Misc, kHIDPage_GenericDesktop, kHIDUsage_GD_X, 2, 3, 9⟩]
    5).2.2.2.2 (by decide)

/-- `setButtonState` leaves every bit below 32 other than `index` unchanged
(indices at and above 32 are modelled as touching no bit at all, see
`setButtonState`). -/
theorem testBit_setButtonState_of_ne (bs idx : Nat) (v : Int) (i : Nat)
    (hi : i < 32) (hne : idx ≠ i) :
    Nat.testBit (setButtonState bs idx v) i = Nat.testBit bs i := by
  unfold setButtonState
  by_cases hidx : idx < 32
  · have hmask : 2 ^ idx % 2 ^ 32 = 2 ^ idx :=
      Nat.mod_eq_of_lt (Nat.pow_lt_pow_right (by norm_num) hidx)
    by_cases hv : v = 0
    · simp only [if_pos hv, hmask, Nat.testBit_and, Nat.testBit_xor,
        Nat.testBit_two_pow_sub_one, Nat.testBit_two_pow_of_ne hne, decide_eq_true hi,
        Bool.true_xor, Bool.not_false, Bool.and_true]
    · simp only [if_neg hv, hmask, Nat.testBit_or, Nat.testBit_two_pow_of_ne hne,
        Bool.or_false]
  · have hmask : 2 ^ idx % 2 ^ 32 = 0 :=
      Nat.mod_eq_zero_of_dvd (pow_dvd_pow 2 (le_of_not_lt hidx))
    by_cases hv : v = 0
    · simp only [if_pos hv, hmask, Nat.xor_zero, Nat.testBit_and,
        Nat.testBit_two_pow_sub_one, decide_eq_true hi, Bool.and_true]
    · simp only [if_neg hv, hmask, Nat.or_zero]

/-- A loop iteration preserves bit `i < 32` of the button state unless the
element is a matching in-range button channel aimed at bit `i`. -/
theorem processElement_buttonState_testBit (timestamp reportID : Nat)
    (st : MouseAccum) (e : IOHIDElement) (i : Nat) (hi : i < 32)
    (h : e.usagePage = kHIDPage_Button → reportID = e.reportID →
      e.timeStamp = timestamp → kHIDUsage_Button_1 ≤ e.usage →
      e.usage ≤ kHIDUsage_Button_255 → e.usage - kHIDUsage_Button_1 ≠ i) :
    Nat.testBit (processElement timestamp reportID st e).buttonState i =
      Nat.testBit st.buttonState i := by
  unfold processElement
  split_ifs with h1 h2 h3 h4 h5 h6 h7 h8 <;> try rfl
  exact testBit_setButtonState_of_ne st.buttonState (e.usage - kHIDUsage_Button_1)
    e.value i hi (h h7 (not_ne_iff.mp h1) (not_ne_iff.mp h2) h8.1 h8.2)

/-- Folding the element loop preserves bit `i < 32` of the button state when
no element targets it. -/
theorem foldl_buttonState_testBit (timestamp reportID : Nat) (i : Nat) (hi : i < 32) :
    ∀ (elems : List IOHIDElement) (st : MouseAccum),
      (∀ e ∈ elems, e.usagePage = kHIDPage_Button → reportID = e.reportID →
        e.timeStamp = timestamp → kHIDUsage_Button_1 ≤ e.usage →
        e.usage ≤ kHIDUsage_Button_255 → e.usage - kHIDUsage_Button_1 ≠ i) →
      Nat.testBit ((elems.foldl (processElement timestamp reportID) st).buttonState) i =
        Nat.testBit st.buttonState i
  | [], _, _ => rfl
  | e :: rest, st, h => by
    rw [List.foldl_cons,
      foldl_buttonState_testBit timestamp reportID i hi rest _
        (fun x hx => h x (List.mem_cons_of_mem e hx)),
      processElement_buttonState_testBit timestamp reportID st e i hi
        (h e (List.mem_cons_self e rest))]

/-- C6: the persistent button mask is mutated only at bits targeted by button
channels matching the current packet; every other bit `i < 32` retains its
prior value across an invocation of `handleMouseReport`. -/
theorem button_mask_frame (timestamp reportID : Nat) (elems : List IOHIDElement)
    (buttonState : Nat) (i : Nat) (hi : i < 32)
    (h : ∀ e ∈ elems, e.usagePage = kHIDPage_Button → reportID = e.reportID →
      e.timeStamp = timestamp → kHIDUsage_Button_1 ≤ e.usage →
      e.usage ≤ kHIDUsage_Button_255 → e.usage - kHIDUsage_Button_1 ≠ i) :
    Nat.testBit (handleMouseReport timestamp reportID elems buttonState).buttonState i =
      Nat.testBit buttonState i := by
  unfold handleMouseReport
  exact foldl_buttonState_testBit timestamp reportID i hi elems _ h

/-- Witness for C6: packet 1 (timestamp 10) presses button index 3 via the
button-page channel with usage 4; packet 2 (timestamp 20) carries only an X
axis channel and no button channels, and bit 3 is still set afterwards. -/
theorem button_mask_frame_witness :
    Nat.testBit (handleMouseReport 20 0
        [⟨kIOHIDElementTypeInput_Misc, kHIDPage_GenericDesktop, kHIDUsage_GD_X, 0, 20, 7⟩]
        ((handleMouseReport 10 0
          [⟨kIOHIDElementTypeInput_Misc, kHIDPage_Button, 4, 0, 10, 1⟩]
          0).buttonState)).buttonState 3 = true := by
  rw [button_mask_frame 20 0
    [⟨kIOHIDElementTypeInput_Misc, kHIDPage_GenericDesktop, kHIDUsage_GD_X, 0, 20, 7⟩]
    ((handleMouseReport 10 0
      [⟨kIOHIDElementTypeInput_Misc, kHIDPage_Button, 4, 0, 10, 1⟩] 0).buttonState)
    3 (by decide) (by decide)]
  decide

/-- C8: the interpreter's button guard admits usage codes up to the 255th
button with no bound check against the 32-bit mask width: the classified
button channel with usage code 40 passes the guard, its computed index
`40 - kHIDUsage_Button_1 = 39` is at least 32, and `handleMouseReport` hands
that index to `setButtonState`, whose `1 << index` shift exceeds the 32-bit
mask width (under the value-wrap model of that overflow the mask is 0 and the
press is silently lost). -/
theorem button_index_unbounded :
    (⟨kIOHIDElementTypeInput_Misc, kHIDPage_Button, 40, 0, 0, 1⟩ : IOHIDElement) ∈
      (parseMouseElements
        [⟨kIOHIDElementTypeInput_Misc, kHIDPage_Button, 40, 0, 0, 1⟩]).1
    ∧ kHIDUsage_Button_1 ≤ 40 ∧ 40 ≤ kHIDUsage_Button_255
    ∧ 32 ≤ 40 - kHIDUsage_Button_1
    ∧ (handleMouseReport 0 0
        [⟨kIOHIDElementTypeInput_Misc, kHIDPage_Button, 40, 0, 0, 1⟩]
        0).buttonState = setButtonState 0 (40 - kHIDUsage_Button_1) 1
    ∧ setButtonState 0 (40 - kHIDUsage_Button_1) 1 = 0 := by
  decide

/-- C9: a classified button-page channel whose usage code lies outside
`[kHIDUsage_Button_1, kHIDUsage_Button_255]` is ignored by the interpreter
loop even when its report ID and timestamp match the packet: the loop
accumulator, button state included, is unchanged. -/
theorem out_of_range_button_ignored (timestamp reportID : Nat) (st : MouseAccum)
    (e : IOHIDElement)
    (_hClassified : e ∈ (parseMouseElements [e]).1)
    (hPage : e.usagePage = kHIDPage_Button)
    (hRange : e.usage < kHIDUsage_Button_1 ∨ kHIDUsage_Button_255 < e.usage)
    (hRid : e.reportID = reportID) (hTs : e.timeStamp = timestamp) :
    processElement timestamp reportID st e = st := by
  have hnot : ¬(kHIDUsage_Button_1 ≤ e.usage ∧ e.usage ≤ kHIDUsage_Button_255) := by
    rcases hRange with h | h
    · exact fun hc => absurd hc.1 (not_le.mpr h)
    · exact fun hc => absurd hc.2 (not_le.mpr h)
  have hg : e.usagePage ≠ kHIDPage_GenericDesktop := by
    rw [hPage]; decide
  simp [processElement, hRid, hTs, hPage, hg, hnot]
  intro hPG
  exact absurd hPG (by decide)

/-- Witness for C9: a matching, classified button channel with usage code 300
leaves the accumulator `⟨0, 0, 0, 7⟩` untouched. -/
theorem out_of_range_button_ignored_witness :
    processElement 0 0 ⟨0, 0, 0, 7⟩
        ⟨kIOHIDElementTypeInput_Misc, kHIDPage_Button, 300, 0, 0, 1⟩ =
      ⟨0, 0, 0, 7⟩ :=
  out_of_range_button_ignored 0 0 ⟨0, 0, 0, 7⟩
    ⟨kIOHIDElementTypeInput_Misc, kHIDPage_Button, 300, 0, 0, 1⟩
    (by decide) rfl (Or.inr (by decide)) rfl rfl

/-- A channel matches a given generic-desktop usage for the current packet
when it passes the report-ID and timestamp checks and carries that usage on
the generic-desktop page. -/
def matchingUsage (timestamp reportID usage : Nat) (e : IOHIDElement) : Bool :=
  decide (reportID = e.reportID) && decide (e.timeStamp = timestamp) &&
    decide (e.usagePage = kHIDPage_GenericDesktop) && decide (e.usage = usage)

/-- A loop iteration over a channel that does not match the X usage leaves
`dX` unchanged. -/
theorem processElement_dX_of_nomatch (timestamp reportID : Nat) (st : MouseAccum)
    (e : IOHIDElement) (h : matchingUsage timestamp reportID kHIDUsage_GD_X e = false) :
    (processElement timestamp reportID st e).dX = st.dX := by
  unfold processElement
  split_ifs with h1 h2 h3 h4 h5 h6 h7 h8 <;> try rfl
  exfalso
  simp [matchingUsage, not_ne_iff.mp h1, not_ne_iff.mp h2, h3, h4] at h

/-- A loop iteration over a channel matching the X usage sets `dX` to the
scaled sample of that channel. -/
theorem processElement_dX_of_match (timestamp reportID : Nat) (st : MouseAccum)
    (e : IOHIDElement) (h : matchingUsage timestamp reportID kHIDUsage_GD_X e = true) :
    (processElement timestamp reportID st e).dX = wrap32 (e.value * 2 ^ 15) := by
  simp only [matchingUsage, Bool.and_eq_true, decide_eq_true_eq] at h
  obtain ⟨⟨⟨e1, e2⟩, e3⟩, e4⟩ := h
  simp [processElement, ← e1, e2, e3, e4]

/-- A loop iteration over a channel that does not match the Y usage leaves
`dY` unchanged. -/
theorem processElement_dY_of_nomatch (timestamp reportID : Nat) (st : MouseAccum)
    (e : IOHIDElement) (h : matchingUsage timestamp reportID kHIDUsage_GD_Y e = false) :
    (processElement timestamp reportID st e).dY = st.dY := by
  unfold processElement
  split_ifs with h1 h2 h3 h4 h5 h6 h7 h8 <;> try rfl
  exfalso
  simp [matchingUsage, not_ne_iff.mp h1, not_ne_iff.mp h2, h3, h5] at h

/-- A loop iteration over a channel matching the Y usage sets `dY` to the
scaled sample of that channel. -/
theorem processElement_dY_of_match (timestamp reportID : Nat) (st : MouseAccum)
    (e : IOHIDElement) (h : matchingUsage timestamp reportID kHIDUsage_GD_Y e = true) :
    (processElement timestamp reportID st e).dY = wrap32 (e.value * 2 ^ 15) := by
  simp only [matchingUsage, Bool.and_eq_true, decide_eq_true_eq] at h
  obtain ⟨⟨⟨e1, e2⟩, e3⟩, e4⟩ := h
  have hxy : kHIDUsage_GD_Y ≠ kHIDUsage_GD_X := by decide
  simp [processElement, ← e1, e2, e3, e4, hxy]

/-- A loop iteration over a channel that does not match the wheel usage leaves
`scrollVert` unchanged. -/
theorem processElement_scrollVert_of_nomatch (timestamp reportID : Nat)
    (st : MouseAccum) (e : IOHIDElement)
    (h : matchingUsage timestamp reportID kHIDUsage_GD_Wheel e = false) :
    (processElement timestamp reportID st e).scrollVert = st.scrollVert := by
  unfold processElement
  split_ifs with h1 h2 h3 h4 h5 h6 h7 h8 <;> try rfl
  exfalso
  simp [matchingUsage, not_ne_iff.mp h1, not_ne_iff.mp h2, h3, h6] at h

/-- A loop iteration over a channel matching the wheel usage sets
`scrollVert` to the fixed-point product for that channel. -/
theorem processElement_scrollVert_of_match (timestamp reportID : Nat)
    (st : MouseAccum) (e : IOHIDElement)
    (h : matchingUsage timestamp reportID kHIDUsage_GD_Wheel e = true) :
    (processElement timestamp reportID st e).scrollVert =
      IOFixedMultiply (wrap32 (e.value * 2 ^ 16)) (wrap32 (-3 * 2 ^ 16)) := by
  simp only [matchingUsage, Bool.and_eq_true, decide_eq_true_eq] at h
  obtain ⟨⟨⟨e1, e2⟩, e3⟩, e4⟩ := h
  have hx : kHIDUsage_GD_Wheel ≠ kHIDUsage_GD_X := by decide
  have hy : kHIDUsage_GD_Wheel ≠ kHIDUsage_GD_Y := by decide
  simp [processElement, ← e1, e2, e3, e4, hx, hy]

/-- Generic fold lemma: if a component of the accumulator is untouched by
every non-matching channel, then a fold over a list with no matching channel
leaves that component unchanged. -/
theorem foldl_component_nomatch (timestamp reportID usage : Nat) (f : MouseAccum → Int)
    (hA : ∀ (st : MouseAccum) (e : IOHIDElement),
      matchingUsage timestamp reportID usage e = false →
      f (processElement timestamp reportID st e) = f st) :
    ∀ (elems : List IOHIDElement) (st : MouseAccum),
      elems.filter (matchingUsage timestamp reportID usage) = [] →
      f (elems.foldl (processElement timestamp reportID) st) = f st
  | [], _, _ => rfl
  | e :: rest, st, h => by
    rw [List.filter_cons] at h
    by_cases hm : matchingUsage timestamp reportID usage e = true
    · rw [if_pos hm] at h
      exact absurd h (List.cons_ne_nil _ _)
    · rw [if_neg hm] at h
      rw [List.foldl_cons, foldl_component_nomatch timestamp reportID usage f hA rest _ h,
        hA st e (Bool.eq_false_iff.mpr hm)]

/-- Generic fold lemma: the last matching channel in list order alone
determines the final value of an overwritten accumulator component. -/
theorem foldl_component_last (timestamp reportID usage : Nat) (f : MouseAccum → Int)
    (scale : Int → Int)
    (hA : ∀ (st : MouseAccum) (e : IOHIDElement),
      matchingUsage timestamp reportID usage e = false →
      f (processElement timestamp reportID st e) = f st)
    (hB : ∀ (st : MouseAccum) (e : IOHIDElement),
      matchingUsage timestamp reportID usage e = true →
      f (processElement timestamp reportID st e) = scale e.value) :
    ∀ (elems : List IOHIDElement) (st : MouseAccum) (e : IOHIDElement),
      (elems.filter (matchingUsage timestamp reportID usage)).getLast? = some e →
      f (elems.foldl (processElement timestamp reportID) st) = scale e.value
  | [], _, _, h => by simp at h
  | a :: rest, st, e, h => by
    rw [List.filter_cons] at h
    by_cases hm : matchingUsage timestamp reportID usage a = true
    · rw [if_pos hm] at h
      rcases hrest : rest.filter (matchingUsage timestamp reportID usage) with _ | ⟨b, l⟩
      · rw [hrest] at h
        simp only [List.getLast?_singleton, Option.some.injEq] at h
        rw [List.foldl_cons,
          foldl_component_nomatch timestamp reportID usage f hA rest _ hrest,
          hB st a hm, h]
      · have hlast : (a :: rest.filter (matchingUsage timestamp reportID usage)).getLast? =
            (rest.filter (matchingUsage timestamp reportID usage)).getLast? := by
          rw [hrest]
          exact List.getLast?_cons_cons
        rw [hlast] at h
        rw [List.foldl_cons]
        exact foldl_component_last timestamp reportID usage f scale hA hB rest _ e h
    · rw [if_neg hm] at h
      rw [List.foldl_cons]
      exact foldl_component_last timestamp reportID usage f scale hA hB rest _ e h

/-- C10: axis and wheel deltas are overwritten, not accumulated, within a
packet: when several classified channels with the same axis usage match the
packet's report ID and timestamp, the emitted delta equals the scaled sample
of the last such channel in set order alone. -/
theorem axis_delta_overwritten (timestamp reportID buttonState : Nat)
    (elems : List IOHIDElement) :
    (∀ e, (elems.filter (matchingUsage timestamp reportID kHIDUsage_GD_X)).getLast? = some e →
      (handleMouseReport timestamp reportID elems buttonState).pointer.dx =
        wrap32 (e.value * 2 ^ 15))
    ∧ (∀ e, (elems.filter (matchingUsage timestamp reportID kHIDUsage_GD_Y)).getLast? = some e →
      (handleMouseReport timestamp reportID elems buttonState).pointer.dy =
        wrap32 (e.value * 2 ^ 15))
    ∧ (∀ e, (elems.filter (matchingUsage timestamp reportID kHIDUsage_GD_Wheel)).getLast? = some e →
      (handleMouseReport timestamp reportID elems buttonState).scroll.vertical =
        IOFixedMultiply (wrap32 (e.value * 2 ^ 16)) (wrap32 (-3 * 2 ^ 16))) := by
  refine ⟨?_, ?_, ?_⟩ <;> intro e h
  · exact foldl_component_last timestamp reportID kHIDUsage_GD_X (fun st => st.dX)
      (fun v => wrap32 (v * 2 ^ 15))
      (processElement_dX_of_nomatch timestamp reportID)
      (processElement_dX_of_match timestamp reportID) elems _ e h
  · exact foldl_component_last timestamp reportID kHIDUsage_GD_Y (fun st => st.dY)
      (fun v => wrap32 (v * 2 ^ 15))
      (processElement_dY_of_nomatch timestamp reportID)
      (processElement_dY_of_match timestamp reportID) elems _ e h
  · exact foldl_component_last timestamp reportID kHIDUsage_GD_Wheel
      (fun st => st.scrollVert)
      (fun v => IOFixedMultiply (wrap32 (v * 2 ^ 16)) (wrap32 (-3 * 2 ^ 16)))
      (processElement_scrollVert_of_nomatch timestamp reportID)
      (processElement_scrollVert_of_match timestamp reportID) elems _ e h

/-- Witness for C10: two matching X channels with samples 1 and 2 yield
`deltaX = 2 << 15 = 65536`, the scaled last sample alone, not the sum
`32768 + 65536` of the two contributions. -/
theorem axis_delta_overwritten_witness :
    (handleMouseReport 0 0
        [⟨kIOHIDElementTypeInput_Misc, kHIDPage_GenericDesktop, kHIDUsage_GD_X, 0, 0, 1⟩,
         ⟨kIOHIDElementTypeInput_Misc, kHIDPage_GenericDesktop, kHIDUsage_GD_X, 0, 0, 2⟩]
        0).pointer.dx = 65536
    ∧ (65536 : Int) ≠ 32768 + 65536 := by
  refine ⟨?_, by decide⟩
  rw [(axis_delta_overwritten 0 0 0
    [⟨kIOHIDElementTypeInput_Misc, kHIDPage_GenericDesktop, kHIDUsage_GD_X, 0, 0, 1⟩,
     ⟨kIOHIDElementTypeInput_Misc, kHIDPage_GenericDesktop, kHIDUsage_GD_X, 0, 0, 2⟩]).1
    ⟨kIOHIDElementTypeInput_Misc, kHIDPage_GenericDesktop, kHIDUsage_GD_X, 0, 0, 2⟩
    (by decide)]
  decide
